import Mathlib

/-!
Verification development for the validator/spec engine of the `monk`
schema-validation library (module `monk/validators.py`, with its error
taxonomy from `monk/errors.py` and the thin `validate` wrapper from
`monk/helpers.py`).

The embedding is shallow: Python values are modelled by the inductive
type `Value` (dictionaries as insertion-ordered association lists),
validator instances by the inductive type `Validator` (one constructor
per concrete validator class, each carrying the fields its `__init__`
stores plus the `negated` flag), exceptions by the inductive type `PErr`,
and the partial-function behaviour of each method by `Except`-valued
functions (`checkV` for `_check`, `callV` for `__call__`, `mergeV` for
`_merge`, `get_default_for`, `translate`).
-/

namespace Monk

/-- A Python value as handled by the library: scalars, strings, lists,
dictionaries (modelled as insertion-ordered association lists) and the
`MISSING` sentinel class used for key-presence probing. -/
inductive Value : Type where
  | none : Value
  | bool : Bool → Value
  | int : Int → Value
  | str : String → Value
  | list : List Value → Value
  | dict : List (Value × Value) → Value
  | missing : Value
deriving Repr

mutual

/-- Structural equality of values (the embedding's reading of Python `==`
on document data). -/
def Value.beq : Value → Value → Bool
  | .none, .none => true
  | .bool a, .bool b => a == b
  | .int a, .int b => a == b
  | .str a, .str b => a == b
  | .missing, .missing => true
  | .list xs, .list ys => Value.beqList xs ys
  | .dict xs, .dict ys => Value.beqDict xs ys
  | _, _ => false

/-- Elementwise equality of value lists. -/
def Value.beqList : List Value → List Value → Bool
  | [], [] => true
  | x :: xs, y :: ys => Value.beq x y && Value.beqList xs ys
  | _, _ => false

/-- Pairwise equality of dictionary bindings. -/
def Value.beqDict : List (Value × Value) → List (Value × Value) → Bool
  | [], [] => true
  | (k1, v1) :: xs, (k2, v2) :: ys =>
      Value.beq k1 k2 && Value.beq v1 v2 && Value.beqDict xs ys
  | _, _ => false

end

instance : BEq Value := ⟨Value.beq⟩

theorem Value.eq_of_beq : ∀ {a b : Value}, Value.beq a b = true → a = b := by
  apply Value.beq.induct
    (fun a b => Value.beq a b = true → a = b)
    (fun xs ys => Value.beqDict xs ys = true → xs = ys)
    (fun xs ys => Value.beqList xs ys = true → xs = ys) <;>
    intros <;> simp_all [Value.beq, Value.beqList, Value.beqDict]

mutual

theorem Value.beq_rfl : ∀ (a : Value), Value.beq a a = true
  | .none => rfl
  | .bool b => by simp [Value.beq]
  | .int n => by simp [Value.beq]
  | .str s => by simp [Value.beq]
  | .missing => rfl
  | .list xs => by rw [Value.beq]; exact Value.beqList_rfl xs
  | .dict kvs => by rw [Value.beq]; exact Value.beqDict_rfl kvs

theorem Value.beqList_rfl : ∀ (xs : List Value), Value.beqList xs xs = true
  | [] => rfl
  | x :: xs => by
      rw [Value.beqList, Value.beq_rfl x, Value.beqList_rfl xs]; rfl

theorem Value.beqDict_rfl : ∀ (xs : List (Value × Value)),
    Value.beqDict xs xs = true
  | [] => rfl
  | (k, v) :: xs => by
      rw [Value.beqDict, Value.beq_rfl k, Value.beq_rfl v,
        Value.beqDict_rfl xs]; rfl

end

instance : DecidableEq Value := fun a b =>
  if h : Value.beq a b = true then .isTrue (Value.eq_of_beq h)
  else .isFalse (fun he => h (he ▸ Value.beq_rfl a))

instance : LawfulBEq Value where
  eq_of_beq := Value.eq_of_beq
  rfl := Value.beq_rfl _

/-- The Python types the engine can name in `IsA` checks. -/
inductive PyType : Type where
  | noneType | boolT | intT | strT | listT | dictT | floatT | typeT
deriving DecidableEq, Repr

/-- Python `type(value)`.  The `MISSING` sentinel is a class, hence of
type `type`. -/
def typeOf : Value → PyType
  | .none => .noneType
  | .bool _ => .boolT
  | .int _ => .intT
  | .str _ => .strT
  | .list _ => .listT
  | .dict _ => .dictT
  | .missing => .typeT

/-- Python `isinstance(value, t)`; `bool` is a subclass of `int`. -/
def isinst (v : Value) (t : PyType) : Bool :=
  typeOf v == t || (typeOf v == .boolT && t == .intT)

/-- Python truthiness of a value. -/
def truthy : Value → Bool
  | .none => false
  | .bool b => b
  | .int n => n != 0
  | .str s => s ≠ ""
  | .list xs => !xs.isEmpty
  | .dict kvs => !kvs.isEmpty
  | .missing => true

mutual

/-- The bool-to-int canonical form through which Python compares
values: `True`/`False` become `1`/`0`, recursively inside containers,
everything else is untouched. -/
def canon : Value → Value
  | .bool b => .int (if b then 1 else 0)
  | .list xs => .list (canonList xs)
  | .dict kvs => .dict (canonDict kvs)
  | v => v

/-- `canon` mapped over a list. -/
def canonList : List Value → List Value
  | [] => []
  | x :: rest => canon x :: canonList rest

/-- `canon` mapped over dictionary bindings. -/
def canonDict : List (Value × Value) → List (Value × Value)
  | [] => []
  | (k, v) :: rest => (canon k, canon v) :: canonDict rest

end

/-- Python `==` on values: structural equality up to the numeric
coercion that identifies booleans with their integer values
(`1 == True`, `0 == False`), also inside containers.  (Python's
order-insensitive dictionary equality is modelled positionally.)  This
is the comparison used by `Equals`, dictionary-key operations and
`__dict__` comparison. -/
def Value.pyEq (a b : Value) : Bool :=
  canon a == canon b

theorem Value.pyEq_iff (a b : Value) : Value.pyEq a b = true ↔ canon a = canon b := by
  simp [Value.pyEq]

theorem Value.pyEq_rfl (a : Value) : Value.pyEq a a = true := by
  simp [Value.pyEq]

/-- Python hashability: lists and dicts are unhashable; every other
modelled value (including the `MISSING` class) is hashable.  Hashing an
unhashable value — in a dict lookup, a dict display or `in` on a dict —
raises `TypeError`. -/
def hashable : Value → Bool
  | .list _ => false
  | .dict _ => false
  | _ => true

/-- First binding for a key in an association-list dictionary,
comparing keys with Python `==` (hash collisions between equal keys
such as `1` and `True` behave like Python's). -/
def dictLookup (kvs : List (Value × Value)) (k : Value) : Option Value :=
  match kvs with
  | [] => Option.none
  | (k0, v0) :: rest => if Value.pyEq k0 k then some v0 else dictLookup rest k

/-- Python `value.get(key)` for a hashable key: `None` when the key is
absent. -/
def dictGet (kvs : List (Value × Value)) (k : Value) : Value :=
  (dictLookup kvs k).getD .none

/-- Whether an association-list dictionary has a binding equal
(Python `==`) to `k`. -/
def containsKey (kvs : List (Value × Value)) (k : Value) : Bool :=
  kvs.any (fun p => Value.pyEq p.1 k)

/-- Python `d[k] = v` for dictionaries and a hashable key: replace the
value in place if an equal key is present, append the binding
otherwise. -/
def dictSet (kvs : List (Value × Value)) (k v : Value) : List (Value × Value) :=
  match kvs with
  | [] => [(k, v)]
  | (k0, v0) :: rest =>
      if Value.pyEq k0 k then (k0, v) :: rest else (k0, v0) :: dictSet rest k v

/-- The `__name__` of a modelled Python type. -/
def typeName : PyType → String
  | .noneType => "NoneType"
  | .boolT => "bool"
  | .intT => "int"
  | .strT => "str"
  | .listT => "list"
  | .dictT => "dict"
  | .floatT => "float"
  | .typeT => "type"

/-- Python `repr()` of a modelled type object, as rendered inside
`str()` of a container. -/
def clsRepr (t : PyType) : String :=
  "<class \x27" ++ typeName t ++ "\x27>"

/-- The message of the `TypeError` raised when an unhashable value is
hashed (`TypeError: unhashable type: 'list'`). -/
def unhashableMsg (v : Value) : String :=
  "unhashable type: \x27" ++ typeName (typeOf v) ++ "\x27"

mutual

/-- Python `repr()` of a value.  Strings are rendered between single
quotes (the common case; escaping of quotes inside the string is not
modelled). -/
def valueRepr : Value → String
  | .none => "None"
  | .bool true => "True"
  | .bool false => "False"
  | .int n => toString n
  | .str s => "\x27" ++ s ++ "\x27"
  | .list xs => "[" ++ valueReprList xs ++ "]"
  | .dict kvs => "\x7b" ++ valueReprDict kvs ++ "\x7d"
  | .missing => "<class \x27monk.validators.MISSING\x27>"

/-- Comma-joined `repr()`s of list elements. -/
def valueReprList : List Value → String
  | [] => ""
  | [x] => valueRepr x
  | x :: rest => valueRepr x ++ ", " ++ valueReprList rest

/-- Comma-joined `repr()`s of dictionary bindings. -/
def valueReprDict : List (Value × Value) → String
  | [] => ""
  | [(k, v)] => valueRepr k ++ ": " ++ valueRepr v
  | (k, v) :: rest => valueRepr k ++ ": " ++ valueRepr v ++ ", " ++ valueReprDict rest

end

/-- Python `str()` of a value (falls back to `repr()` except for
strings, which render as themselves). -/
def pyStr (v : Value) : String :=
  match v with
  | .str s => s
  | other => valueRepr other

/-- The item-toleration strategy of `BaseListOf` subclasses:
`ITEM_STRATEGY_ALL` (class `ListOfAll`, the `ListOf` alias) or
`ITEM_STRATEGY_ANY` (class `ListOfAny`). -/
inductive ItemStrategy : Type where
  | all | any
deriving DecidableEq, Repr

/-- A validator instance: one constructor per concrete class of
`monk/validators.py`, carrying exactly the state its `__init__` stores
plus the `negated` flag (class-level default `False`, flipped by
`__invert__`).  `InRange`/`Length` store `_default` only when the
`default` argument was given (`Option`); `IsA`, `Exists`, `ListOf` and
the combinators always store it (possibly `None`). -/
inductive Validator : Type where
  | Anything (negated : Bool)
  | IsA (expected_type : PyType) (dflt : Value) (negated : Bool)
  | Equals (expected_value : Value) (negated : Bool)
  | Contains (expected_value : Value) (negated : Bool)
  | Exists (dflt : Value) (negated : Bool)
  | InRange (min max : Option Int) (dflt : Option Value) (negated : Bool)
  | Length (min max : Option Int) (dflt : Option Value) (negated : Bool)
  | HasAttr (attr_name : String) (negated : Bool)
  | ListOf (strategy : ItemStrategy) (nested : Validator) (dflt : Value) (negated : Bool)
  | DictOf (pairs : List (Validator × Validator)) (negated : Bool)
  | All (specs : List Validator) (dflt : Value) (first_is_default : Bool) (negated : Bool)
  | Any (specs : List Validator) (dflt : Value) (first_is_default : Bool) (negated : Bool)
deriving Repr

/-- The `negated` flag of a validator. -/
def isNeg : Validator → Bool
  | .Anything n => n
  | .IsA _ _ n => n
  | .Equals _ n => n
  | .Contains _ n => n
  | .Exists _ n => n
  | .InRange _ _ _ n => n
  | .Length _ _ _ n => n
  | .HasAttr _ n => n
  | .ListOf _ _ _ n => n
  | .DictOf _ n => n
  | .All _ _ _ n => n
  | .Any _ _ _ n => n

/-- `BaseValidator.__invert__`: a clone of the validator with `negated`
flipped (the deep copy leaves every other stored field untouched, so in
this structural model it is exactly the same node with the flag
toggled). -/
def invert : Validator → Validator
  | .Anything n => .Anything (!n)
  | .IsA t d n => .IsA t d (!n)
  | .Equals e n => .Equals e (!n)
  | .Contains e n => .Contains e (!n)
  | .Exists d n => .Exists d (!n)
  | .InRange a b d n => .InRange a b d (!n)
  | .Length a b d n => .Length a b d (!n)
  | .HasAttr a n => .HasAttr a (!n)
  | .ListOf s v d n => .ListOf s v d (!n)
  | .DictOf p n => .DictOf p (!n)
  | .All s d f n => .All s d f (!n)
  | .Any s d f n => .Any s d f (!n)

/-- The string `'must'` or `'must not'` used by several `__repr__`s. -/
def mustStr (neg : Bool) : String :=
  if neg then "must not" else "must"

/-- Formatting of an optional bound in `InRange.__repr__` and
`Length.__repr__`: empty for `None`. -/
def boundStr : Option Int → String
  | Option.none => ""
  | some n => toString n

mutual

/-- `__repr__` of a validator, following each class's template
(`'must be ...'`, `'must equal ...'`, the `BaseRequirement` and
`BaseCombinator` templates, negation markers). -/
def reprV : Validator → String
  | .Anything neg => (if neg then "~" else "") ++ "Anything()"
  | .IsA t _ neg =>
      let s := "must be " ++ typeName t
      if neg then "not (" ++ s ++ ")" else s
  | .Equals e neg =>
      let s := "must equal " ++ valueRepr e
      if neg then "not (" ++ s ++ ")" else s
  | .Contains e neg =>
      let s := "must contain " ++ valueRepr e
      if neg then "not (" ++ s ++ ")" else s
  | .Exists _ neg => if neg then "must not exist" else "must exist"
  | .InRange mn mx _ neg =>
      mustStr neg ++ " belong to " ++ boundStr mn ++ ".." ++ boundStr mx
  | .Length mn mx _ neg =>
      mustStr neg ++ " have length of " ++ boundStr mn ++ ".." ++ boundStr mx
  | .HasAttr a neg =>
      mustStr neg ++ " have attribute \x27" ++ a ++ "\x27"
  | .ListOf strat nested _ neg =>
      (if neg then "~" else "") ++
        (match strat with | .all => "ListOfAll" | .any => "ListOfAny") ++
        "(" ++ reprV nested ++ ")"
  | .DictOf pairs neg =>
      (if neg then "~" else "") ++ "DictOf(" ++ "[" ++ reprPairsV pairs ++ "]" ++ ")"
  | .All specs _ _ neg =>
      (if neg then "not " else "") ++ "(" ++ reprJoin " and " specs ++ ")"
  | .Any specs _ _ neg =>
      (if neg then "not " else "") ++ "(" ++ reprJoin " or " specs ++ ")"

/-- `__repr__`s of combinator children joined by the combinator's
separator. -/
def reprJoin (sep : String) : List Validator → String
  | [] => ""
  | [v] => reprV v
  | v :: rest => reprV v ++ sep ++ reprJoin sep rest

/-- Python `repr()` of the `(key_validator, value_validator)` tuple list
held by `DictOf` (without the enclosing brackets). -/
def reprPairsV : List (Validator × Validator) → String
  | [] => ""
  | [(k, v)] => "(" ++ reprV k ++ ", " ++ reprV v ++ ")"
  | (k, v) :: rest =>
      "(" ++ reprV k ++ ", " ++ reprV v ++ ")" ++ ", " ++ reprPairsV rest

end

/-- The concrete exception classes of `monk/errors.py` that share
`ValidationError.__init__`. -/
inductive ErrClass : Type where
  | validationError
  | structureSpecificationError
  | dictValueError
  | missingKeys
  | invalidKeys
  | combinedValidationError
  | allFailed
  | atLeastOneFailed
deriving DecidableEq, Repr

mutual

/-- A Python exception as raised by the engine: either a
`ValidationError`-family instance (class, `message`, `values`), or one
of the built-in exceptions the code can hit (`TypeError`,
`AssertionError`). -/
inductive PErr : Type where
  | typeError (msg : String)
  | assertionError (msg : String)
  | vErr (cls : ErrClass) (message : ErrMsg) (values : List ErrMsg)

/-- A Python object stored in an exception's `message`/`values` slots: a
string, a data value, a nested exception, or a validator instance. -/
inductive ErrMsg : Type where
  | str (s : String)
  | val (v : Value)
  | err (e : PErr)
  | vtor (w : Validator)

end

/-- Truthiness of an exception-slot object (`[value] if value else []`
in `ValidationError.__init__`): exceptions and validators are plain
objects, hence truthy. -/
def msgTruthy : ErrMsg → Bool
  | .str s => s ≠ ""
  | .val v => truthy v
  | .err _ => true
  | .vtor _ => true

/-- Calling an exception class with positional arguments.
`ValidationError.__init__(self, message, value=None)` accepts at most
two of them, so a call with three or more (as `InvalidKeys(*keys)` or
`AllFailed(*errors)` can produce) raises `TypeError`, and a call with
none lacks the required `message`. -/
def construct (cls : ErrClass) (args : List ErrMsg) : PErr :=
  match args with
  | [] => .typeError "init missing 1 required positional argument: message"
  | [m] => .vErr cls m []
  | [m, v] => .vErr cls m (if msgTruthy v then [v] else [])
  | _ => .typeError "init takes from 2 to 3 positional arguments"

/-- Whether an exception is (an instance of) `ValidationError`
(`TypeError`/`AssertionError` are not; `NoDefaultValue` is modelled
separately in the merging functions). -/
def isValidationErrorE : PErr → Bool
  | .vErr _ _ _ => true
  | _ => false

/-- Whether an exception is a `TypeError`. -/
def isTypeErrorE : PErr → Bool
  | .typeError _ => true
  | _ => false

/-- Whether an exception is (an instance of) `DictValueError`. -/
def isDictValueErrorE : PErr → Bool
  | .vErr .dictValueError _ _ => true
  | _ => false

/-- Whether an exception is a `MissingKeys` instance. -/
def isMissingKeysE : PErr → Bool
  | .vErr .missingKeys _ _ => true
  | _ => false

/-- Whether an exception is an `InvalidKeys` instance. -/
def isInvalidKeysE : PErr → Bool
  | .vErr .invalidKeys _ _ => true
  | _ => false

/-- Whether an exception is an `AtLeastOneFailed` instance. -/
def isAtLeastOneFailedE : PErr → Bool
  | .vErr .atLeastOneFailed _ _ => true
  | _ => false

/-- The `_error_string_separator` class attribute of the
`CombinedValidationError` hierarchy. -/
def errorStringSeparator : ErrClass → String
  | .allFailed => " or "
  | .atLeastOneFailed => " and "
  | _ => "; "

/-- `CombinedValidationError._format_nested_error` applied to one
element obtained by iterating `self.message`: strings and
`ValidationError`s render bare, anything else is prefixed with its
class name. -/
def fmtNestedVal (v : Value) : String :=
  match v with
  | .str s => s
  | other => typeName (typeOf other) ++ ": " ++ pyStr other

/-- `__str__` of an exception.  Formatting can itself raise —
`CombinedValidationError.__str__` iterates `self.message` (a `TypeError`
when the message is a non-iterable object such as a nested exception,
per-character joining when it is a string), and `MissingKeys.__str__`
asserts the message is a list or tuple. -/
def errStr : PErr → Except PErr String
  | .typeError m => .ok m
  | .assertionError m => .ok m
  | .vErr cls msg _ =>
    match cls with
    | .missingKeys =>
        match msg with
        | .val (.list xs) =>
            .ok ("must have keys: " ++ String.intercalate ", " (xs.map valueRepr))
        | _ => .error (.assertionError "message is not a list or tuple")
    | .combinedValidationError | .allFailed | .atLeastOneFailed =>
        match msg with
        | .str s =>
            .ok (String.intercalate (errorStringSeparator cls)
              (s.data.map (fun c => String.singleton c)))
        | .val (.list xs) =>
            .ok (String.intercalate (errorStringSeparator cls) (xs.map fmtNestedVal))
        | .val (.str s) =>
            .ok (String.intercalate (errorStringSeparator cls)
              (s.data.map (fun c => String.singleton c)))
        | .val (.dict kvs) =>
            .ok (String.intercalate (errorStringSeparator cls)
              ((kvs.map Prod.fst).map fmtNestedVal))
        | _ => .error (.typeError "argument is not iterable")
    | _ =>
        match msg with
        | .str s => .ok s
        | .val v => .ok (pyStr v)
        | .err e => errStr e
        | .vtor w => .ok (reprV w)

/-- Python `hasattr(value, name)` restricted to the attribute the
library consults (`__len__`, held by the sized built-ins). -/
def pyHasAttr (v : Value) (attr : String) : Bool :=
  attr == "__len__" &&
    (match typeOf v with
     | .strT | .listT | .dictT => true
     | _ => false)

/-- Python `len(value)` for the sized built-ins. -/
def pyLen : Value → Option Nat
  | .str s => some s.length
  | .list xs => some xs.length
  | .dict kvs => some kvs.length
  | _ => Option.none

/-- The numeric reading of a value that passed the `IsA(int) | IsA(float)`
implication (`bool` counts as `int`). -/
def pyNum : Value → Int
  | .int n => n
  | .bool b => if b then 1 else 0
  | _ => 0

/-- Python `item in container`: membership for lists and dictionary
keys, substring test for strings (requiring a string operand),
`TypeError` otherwise. -/
def pyContains (container item : Value) : Except PErr Bool :=
  match container, item with
  | .list xs, e => .ok (xs.any (fun x => Value.pyEq x e))
  | .dict kvs, e =>
      if hashable e then .ok (containsKey kvs e)
      else .error (.typeError (unhashableMsg e))
  | .str s, .str t => .ok (decide (List.IsInfix t.data s.data))
  | .str _, _ =>
      .error (.typeError "in <string> requires string as left operand")
  | c, _ =>
      .error (.typeError ("argument of type " ++ typeName (typeOf c) ++ " is not iterable"))

/-- The `error_class` attribute of each validator class (used by
`_raise_error` and by the aggregate raise of the combinators and
`BaseListOf`). -/
def errorClassOf : Validator → ErrClass
  | .All _ _ _ _ => .atLeastOneFailed
  | .Any _ _ _ _ => .allFailed
  | .ListOf .all _ _ _ => .atLeastOneFailed
  | .ListOf .any _ _ _ => .allFailed
  | _ => .validationError

/-- `BaseValidator._raise_error`: raise `self.error_class(repr(self))`. -/
def raisedErr (v : Validator) : PErr :=
  construct (errorClassOf v) [.str (reprV v)]

/-- The `implies` pre-check run by `BaseRequirement.__call__` before
`_check`: `IsA(int) | IsA(float)` for `InRange`, `HasAttr('__len__')`
for `Length`, `IsA(list)` for the `ListOf` classes, `IsA(dict)` for
`DictOf`; no other class carries one.  Each implied validator is a
fresh non-negated instance, so its call semantics are inlined here. -/
def impliesCheck (v : Validator) (x : Value) : Except PErr Unit :=
  match v with
  | .InRange _ _ _ _ =>
      if isinst x .intT || isinst x .floatT then .ok ()
      else
        .error (construct .allFailed
          [.err (construct .validationError [.str (reprV (.IsA .intT .none false))]),
           .err (construct .validationError [.str (reprV (.IsA .floatT .none false))])])
  | .Length _ _ _ _ =>
      if pyHasAttr x "__len__" then .ok ()
      else .error (construct .validationError [.str (reprV (.HasAttr "__len__" false))])
  | .ListOf _ _ _ _ =>
      if isinst x .listT then .ok ()
      else .error (construct .validationError [.str (reprV (.IsA .listT .none false))])
  | .DictOf _ _ =>
      if isinst x .dictT then .ok ()
      else .error (construct .validationError [.str (reprV (.IsA .dictT .none false))])
  | _ => .ok ()

/-- The negation handling of `BaseValidator.__call__` around the result
of `_check`: a `ValidationError` from the wrapped check is swallowed
when negated (other exceptions always propagate), and a success under
negation becomes `_raise_error`. -/
def negWrap (neg : Bool) (onPass : PErr) (r : Except PErr Unit) : Except PErr Unit :=
  match r with
  | .ok () => if neg then .error onPass else .ok ()
  | .error e => if neg && isValidationErrorE e then .ok () else .error e

/-- `BaseListOf.can_tolerate` / `BaseCombinator.can_tolerate`
aggregation for the list classes, taking the collected item errors and
the length of the value. -/
def canTolerateItems (strat : ItemStrategy) (errCount total : Nat) : Bool :=
  match strat with
  | .all => errCount == 0
  | .any => errCount < total

/-- The bindings of a dictionary value (empty for anything else; the
callers reach the non-dict case only for falsy values, through
`value = value or \x7b\x7d`). -/
def dictData : Value → List (Value × Value)
  | .dict kvs => kvs
  | _ => []

/-- The elements of a list value (empty for anything else). -/
def listData : Value → List Value
  | .list xs => xs
  | _ => []

/-- The `set(value) - set(validated_data_keys)` computation of
`DictOf._check`: the data keys never consumed by any declared pair
(Python iterates the set in unspecified order; the embedding keeps the
dictionary's insertion order). -/
def invalidDataKeys (kvs : List (Value × Value)) (validated : List Value) :
    List Value :=
  (kvs.map Prod.fst).filter (fun k => !(validated.any (fun vk => Value.pyEq vk k)))

/-- The arguments of the `MissingKeys(*reprs)` raise: the expected
value for an `Equals` key validator, the validator object itself
otherwise. -/
def missingKeyReprs (specs : List Validator) : List ErrMsg :=
  specs.map (fun spec =>
    match spec with
    | .Equals e _ => ErrMsg.val e
    | w => ErrMsg.vtor w)

mutual

/-- `__call__` of a validator: run the `implies` pre-check
(`BaseRequirement.__call__`), then `_check` under the negation handling
of `BaseValidator.__call__`. -/
def callV (v : Validator) (x : Value) : Except PErr Unit :=
  match impliesCheck v x with
  | .error e => .error e
  | .ok () => negWrap (isNeg v) (raisedErr v) (checkV v x)
termination_by (sizeOf v, 1)

/-- `_check` of each validator class. -/
def checkV (v : Validator) (x : Value) : Except PErr Unit :=
  match v with
  | .Anything _ => .ok ()
  | .IsA t d neg =>
      if isinst x t then .ok () else .error (raisedErr (.IsA t d neg))
  | .Equals e neg =>
      if Value.pyEq e x then .ok () else .error (raisedErr (.Equals e neg))
  | .Contains e neg =>
      match pyContains x e with
      | .ok true => .ok ()
      | .ok false => .error (raisedErr (.Contains e neg))
      | .error t => .error t
  | .Exists d neg =>
      if x == Value.missing then .error (raisedErr (.Exists d neg)) else .ok ()
  | .InRange mn mx d neg =>
      let n := pyNum x
      if (match mn with | some m => decide (m > n) | _ => false) then
        .error (raisedErr (.InRange mn mx d neg))
      else if (match mx with | some mM => decide (mM < n) | _ => false) then
        .error (raisedErr (.InRange mn mx d neg))
      else .ok ()
  | .Length mn mx d neg =>
      match pyLen x with
      | Option.none =>
          .error (.typeError ("object of type " ++ typeName (typeOf x) ++ " has no len"))
      | some len =>
          let n : Int := len
          if (match mn with | some m => decide (m > n) | _ => false) then
            .error (raisedErr (.Length mn mx d neg))
          else if (match mx with | some mM => decide (mM < n) | _ => false) then
            .error (raisedErr (.Length mn mx d neg))
          else .ok ()
  | .HasAttr a neg =>
      if pyHasAttr x a then .ok () else .error (raisedErr (.HasAttr a neg))
  | .ListOf strat nested _ _ =>
      -- a non-list value cannot reach `_check` through `callV`
      -- because `implies = IsA(list)` rejects it first
      if isinst x .listT then
        let xs := listData x
        let probe : Except PErr Unit :=
          if xs.isEmpty then
            match callV nested .missing with
            | .ok () => .ok ()
            | .error e =>
                if isValidationErrorE e then
                  match errStr e with
                  | .ok s => .error (construct .validationError [.str ("lacks item: " ++ s)])
                  | .error t => .error t
                else .error e
          else .ok ()
        match probe with
        | .error e => .error e
        | .ok () =>
            checkItems strat nested
              (match strat with | .all => .atLeastOneFailed | .any => .allFailed)
              xs.length xs 0 []
      else .error (.typeError (typeName (typeOf x) ++ " object is not iterable"))
  | .DictOf pairs _ =>
      -- `value = value or {}`; a truthy non-dict cannot reach `_check`
      -- through `callV` because `implies = IsA(dict)` rejects it first
      let kvs : List (Value × Value) := dictData x
      match scanPairs pairs kvs [] [] with
      | .error e => .error e
      | .ok (validated, missingSpecs) =>
          if validated.length < kvs.length then
            .error (construct .invalidKeys ((invalidDataKeys kvs validated).map ErrMsg.val))
          else if missingSpecs.isEmpty then .ok ()
          else
            .error (construct .missingKeys (missingKeyReprs missingSpecs))
  | .All specs _ _ _ => checkSpecsAll specs x
  | .Any specs _ _ _ => checkSpecsAny specs.length specs x []
termination_by (sizeOf v, 0)

/-- The item loop of `BaseListOf._check` followed by the
`can_tolerate` decision and the `error_class(*errors)` aggregate
raise. -/
def checkItems (strat : ItemStrategy) (nested : Validator) (ecls : ErrClass)
    (total : Nat) (items : List Value) (i : Nat) (errors : List PErr) :
    Except PErr Unit :=
  match items with
  | [] =>
      if canTolerateItems strat errors.length total then .ok ()
      else .error (construct ecls (errors.map ErrMsg.err))
  | item :: rest =>
      match callV nested item with
      | .ok () => checkItems strat nested ecls total rest (i + 1) errors
      | .error e =>
          if isValidationErrorE e then
            match errStr e with
            | .error t => .error t
            | .ok s =>
                let ann := construct .validationError
                  [.str ("item #" ++ toString i ++ ": " ++ s)]
                match strat with
                | .all => .error ann
                | .any => checkItems strat nested ecls total rest (i + 1) (errors ++ [ann])
          else .error e
termination_by (sizeOf nested, 2 + items.length)

/-- The outer loop of `DictOf._check` over the declared
`(key_validator, value_validator)` pairs, accumulating the consumed
data keys and the missing required key validators. -/
def scanPairs (pairs : List (Validator × Validator)) (kvs : List (Value × Value))
    (validated : List Value) (missing : List Validator) :
    Except PErr (List Value × List Validator) :=
  match pairs with
  | [] => .ok (validated, missing)
  | (kv, vv) :: rest =>
      match scanKeys kv vv kvs validated false with
      | .error e => .error e
      | .ok (validated2, matched) =>
          if matched then scanPairs rest kvs validated2 missing
          else
            match callV kv .missing with
            | .ok () => scanPairs rest kvs validated2 missing
            | .error e =>
                if isValidationErrorE e then
                  scanPairs rest kvs validated2 (missing ++ [kv])
                else .error e
termination_by (sizeOf pairs, 0)

/-- The inner loop of `DictOf._check` over the data items for one
declared pair: skip already-consumed keys, skip keys the key validator
rejects (`TypeError` or `ValidationError`), and validate the value of
every key it accepts, wrapping failures in `DictValueError`. -/
def scanKeys (kv vv : Validator) (items : List (Value × Value))
    (validated : List Value) (matched : Bool) :
    Except PErr (List Value × Bool) :=
  match items with
  | [] => .ok (validated, matched)
  | (k, v) :: rest =>
      if validated.any (fun vk => Value.pyEq vk k) then
        scanKeys kv vv rest validated matched
      else
        match callV kv k with
        | .error e =>
            if isValidationErrorE e || isTypeErrorE e then
              scanKeys kv vv rest validated matched
            else .error e
        | .ok () =>
            match callV vv v with
            | .ok () => scanKeys kv vv rest (validated ++ [k]) true
            | .error e =>
                if isValidationErrorE e || isTypeErrorE e then
                  match errStr e with
                  | .error t => .error t
                  | .ok es =>
                      .error (construct .dictValueError
                        [.str (if isDictValueErrorE e
                               then "in " ++ valueRepr k ++ " (" ++ es ++ ")"
                               else valueRepr k ++ " value " ++ es)])
                else .error e
termination_by (sizeOf kv + sizeOf vv + 1, items.length)

/-- `BaseCombinator._check` with `break_on_first_fail = True` (`All`):
the first child failure propagates unwrapped, so the collected error
list stays empty and `can_tolerate` always passes. -/
def checkSpecsAll (specs : List Validator) (x : Value) : Except PErr Unit :=
  match specs with
  | [] => .ok ()
  | s :: rest =>
      match callV s x with
      | .ok () => checkSpecsAll rest x
      | .error e => .error e
termination_by (sizeOf specs, 0)

/-- `BaseCombinator._check` for `Any`: collect every child
`ValidationError`, tolerate when strictly fewer children failed than
exist, raise `AllFailed(*errors)` otherwise. -/
def checkSpecsAny (total : Nat) (specs : List Validator) (x : Value)
    (errors : List PErr) : Except PErr Unit :=
  match specs with
  | [] =>
      if errors.length < total then .ok ()
      else .error (construct .allFailed (errors.map ErrMsg.err))
  | s :: rest =>
      match callV s x with
      | .ok () => checkSpecsAny total rest x errors
      | .error e =>
          if isValidationErrorE e then checkSpecsAny total rest x (errors ++ [e])
          else .error e
termination_by (sizeOf specs, 0)

end

/-- The `_default` consulted by the base `_merge` for the classes that
do not override `_merge`: `none` models the `NotImplemented` marker
(`Anything`, `HasAttr`, and `InRange`/`Length` without an explicit
default); `Equals`/`Contains` expose their expected value through the
`_default` property. -/
def defaultOf : Validator → Option Value
  | .Anything _ => Option.none
  | .IsA _ d _ => some d
  | .Equals e _ => some e
  | .Contains e _ => some e
  | .Exists d _ => some d
  | .InRange _ _ d _ => d
  | .Length _ _ d _ => d
  | .HasAttr _ _ => Option.none
  | .ListOf _ _ d _ => some d
  | .DictOf _ _ => Option.none
  | .All _ d _ _ => some d
  | .Any _ d _ _ => some d

/-- The exceptions the `_merge` pathway can raise: the internal
`NoDefaultValue` signal (caught by `get_default_for`), or the
`TypeError` Python raises when `DictOf._merge` hashes an unhashable key
default in `value.get(k_default)`, the `\x7bk_default: v_default\x7d`
display or the `in` test of its copy-through loop (never caught). -/
inductive MergeErr : Type where
  | noDefaultValue
  | typeError (msg : String)
deriving DecidableEq, Repr

/-- `BaseValidator._merge`: fail with `NoDefaultValue` unless the value
is `None` and a `_default` other than `NotImplemented` is stored. -/
def mergeBase (dflt : Option Value) (x : Value) : Except MergeErr Value :=
  if x != Value.none then .error .noDefaultValue
  else
    match dflt with
    | Option.none => .error .noDefaultValue
    | some d => .ok d

/-- The copy-through loop at the end of `DictOf._merge`
(`if k not in collected: collected[k] = v`): every data key not already
collected is appended with its original value; the `in` test hashes the
key first, so an unhashable key raises `TypeError`. -/
def copyMissing (collected kvs : List (Value × Value)) :
    Except MergeErr (List (Value × Value)) :=
  match kvs with
  | [] => .ok collected
  | (k, v) :: rest =>
      if hashable k then
        if containsKey collected k then copyMissing collected rest
        else copyMissing (collected ++ [(k, v)]) rest
      else .error (.typeError (unhashableMsg k))

mutual

/-- `_merge` of each validator class.  The overriding classes are
`BaseListOf`, `DictOf` and `BaseCombinator`; everything else uses
`BaseValidator._merge`.  The error is `NoDefaultValue`, except for the
`TypeError`s of `DictOf._merge`'s dict operations on unhashable key
defaults, which propagate through every nested `get_default_for`. -/
def mergeV (v : Validator) (x : Value) : Except MergeErr Value :=
  match v with
  | .ListOf _ nested _ _ =>
      if !truthy x then .ok (.list [])
      else if isinst x .listT then
        match mergeItems nested (listData x) with
        | .ok rs => .ok (.list rs)
        | .error e => .error e
      else .ok x
  | .DictOf pairs _ =>
      if x != Value.none && !(isinst x .dictT) then .ok x
      else if pairs.isEmpty then .ok (.dict [])
      else
        let items : List (Value × Value) := dictData x
        match mergePairs pairs (truthy x) items [] with
        | .error e => .error e
        | .ok collected =>
            if truthy x then
              match copyMissing collected items with
              | .error e => .error e
              | .ok res => .ok (.dict res)
            else .ok (.dict collected)
  | .All specs d f _ => mergeComb specs d f x
  | .Any specs d f _ => mergeComb specs d f x
  | other => mergeBase (defaultOf other) x
termination_by (sizeOf v, 3)

/-- The element loop of `BaseListOf._merge`: `None` items stay, other
items are defaulted in place via the item validator's
`get_default_for` (silent, so only a `TypeError` propagates). -/
def mergeItems (nested : Validator) (xs : List Value) :
    Except MergeErr (List Value) :=
  match xs with
  | [] => .ok []
  | item :: rest =>
      match
        (if item == Value.none then Except.ok item
         else
           match mergeV nested item with
           | .ok r => Except.ok r
           | .error .noDefaultValue => Except.ok item
           | .error e => Except.error e) with
      | .error e => .error e
      | .ok r =>
          match mergeItems nested rest with
          | .error e => .error e
          | .ok rs => .ok (r :: rs)
termination_by (sizeOf nested, 4 + xs.length)

/-- The pair loop of `DictOf._merge`: keys with no extractable default
are skipped; for each concrete key default, the paired value validator
defaults whatever the data holds there (or `None`).  An unhashable key
default raises `TypeError` at `value.get(k_default)` when the value is
truthy, or at the `\x7bk_default: v_default\x7d` dict display
otherwise; the nested `get_default_for` calls are silent, so only their
`TypeError`s propagate. -/
def mergePairs (pairs : List (Validator × Validator)) (valueTruthy : Bool)
    (items : List (Value × Value)) (collected : List (Value × Value)) :
    Except MergeErr (List (Value × Value)) :=
  match pairs with
  | [] => .ok collected
  | (kv, vv) :: rest =>
      match
        (match mergeV kv Value.none with
         | .ok r => Except.ok r
         | .error .noDefaultValue => Except.ok Value.none
         | .error e => Except.error e) with
      | .error e => .error e
      | .ok kDefault =>
          if kDefault == Value.none then mergePairs rest valueTruthy items collected
          else
            match
              (if valueTruthy then
                 (if hashable kDefault then Except.ok (dictGet items kDefault)
                  else Except.error (MergeErr.typeError (unhashableMsg kDefault)))
               else Except.ok Value.none) with
            | .error e => .error e
            | .ok vForThisK =>
                match
                  (match mergeV vv vForThisK with
                   | .ok r => Except.ok r
                   | .error .noDefaultValue => Except.ok vForThisK
                   | .error e => Except.error e) with
                | .error e => .error e
                | .ok vDefault =>
                    if hashable kDefault then
                      mergePairs rest valueTruthy items (dictSet collected kDefault vDefault)
                    else .error (.typeError (unhashableMsg kDefault))
termination_by (sizeOf pairs, 0)

/-- `BaseCombinator._merge`: prefer a truthy construction-time default;
otherwise gather the children's defaults (`silent=False`, catching
`NoDefaultValue` per child) and disambiguate by count and
`_first_is_default`. -/
def mergeComb (specs : List Validator) (dflt : Value) (firstIsDefault : Bool)
    (x : Value) : Except MergeErr Value :=
  if truthy dflt then .ok dflt
  else
    match collectDefaults specs x with
    | .error e => .error e
    | .ok [] => .ok x
    | .ok [d] => .ok d
    | .ok (d :: _) => if firstIsDefault then .ok d else .ok x
termination_by (sizeOf specs, 2)

/-- The per-child `get_default_for(value, silent=False)` loop of
`BaseCombinator._merge` (only `NoDefaultValue` is caught per child). -/
def collectDefaults (specs : List Validator) (x : Value) :
    Except MergeErr (List Value) :=
  match specs with
  | [] => .ok []
  | s :: rest =>
      match mergeV s x with
      | .ok r =>
          (match collectDefaults rest x with
           | .error e => .error e
           | .ok rs => .ok (r :: rs))
      | .error .noDefaultValue => collectDefaults rest x
      | .error e => .error e
termination_by (sizeOf specs, 1)

end

/-- `BaseValidator.get_default_for`: `_merge`, converting
`NoDefaultValue` into a pass-through of the value when `silent`; a
`TypeError` always propagates. -/
def get_default_for (v : Validator) (x : Value) (silent : Bool) :
    Except MergeErr Value :=
  match mergeV v x with
  | .ok r => .ok r
  | .error .noDefaultValue =>
      if silent then .ok x else .error .noDefaultValue
  | .error e => .error e

/-- A "pythonic"/natural schema literal as accepted by `translate`: an
already-built validator, a type object, a zero-argument callable
(modelled, per its contract of being effectively pure, by the sample
value it returns), a list or dict of schemas, or any other literal
value. -/
inductive Schema : Type where
  | validator (v : Validator)
  | tp (t : PyType)
  | callable (sample : Value)
  | list (xs : List Schema)
  | dict (pairs : List (Schema × Schema))
  | lit (v : Value)

/-- The `StructureSpecificationError` raised by `translate` on a list
of length other than 0 or 1, carrying the data the source interpolates
into its message (`'Expected a list containing exactly 1 item; got
{cnt}: {spec}'`): the exact element count and the offending list. -/
inductive TErr : Type where
  | structureSpecificationError (cnt : Nat) (spec : List Schema)
  | typeError (msg : String)

mutual

/-- `translate`: convert a schema literal to a validator, mirroring the
source's `isinstance` dispatch order (validator pass-through, `None`,
type, callable, list, dict, fallback literal). -/
def translate (s : Schema) : Except TErr Validator :=
  match s with
  | .validator v => .ok v
  | .lit Value.none => .ok (.Anything false)
  | .tp t => .ok (.IsA t .none false)
  | .callable sample => .ok (.IsA (typeOf sample) sample false)
  | .list [] => .ok (.IsA .listT .none false)
  | .list [x] =>
      match translate x with
      | .ok v => .ok (.ListOf .all v .none false)
      | .error e => .error e
  | .list xs => .error (.structureSpecificationError xs.length xs)
  | .dict [] => .ok (.IsA .dictT .none false)
  | .dict pairs =>
      match translatePairs pairs with
      | .ok items => .ok (.DictOf items false)
      | .error e => .error e
  | .lit v => .ok (.IsA (typeOf v) v false)
termination_by (sizeOf s, 0)

/-- The pair loop of `translate` on a non-empty dict literal: validator
keys are used as-is; any other key is translated and, when it yields an
extractable non-`None` default, narrowed to `Equals(default)`. -/
def translatePairs (pairs : List (Schema × Schema)) :
    Except TErr (List (Validator × Validator)) :=
  match pairs with
  | [] => .ok []
  | (k, v) :: rest =>
      match
        (match k with
         | .validator w => Except.ok w
         | other =>
             match translate other with
             | .ok kTranslated =>
                 (match get_default_for kTranslated Value.none true with
                  | .ok dflt =>
                      .ok (if dflt == Value.none then kTranslated else .Equals dflt false)
                  | .error (.typeError m) => .error (TErr.typeError m)
                  | .error .noDefaultValue => .ok kTranslated)
             | .error e => .error e) with
      | .error e => .error e
      | .ok kValidator =>
          match translate v with
          | .error e => .error e
          | .ok vValidator =>
              match translatePairs rest with
              | .error e => .error e
              | .ok restT => .ok ((kValidator, vValidator) :: restT)
termination_by (sizeOf pairs, 1)

end

/-- The spec's top-level defaulting entry point,
`merge_defaults(spec, value) = translate(spec).get_default_for(value)`
(with the default `silent=True`, which catches `NoDefaultValue` but
lets a `TypeError` escape; the `NoDefaultValue` arm below is
unreachable and kept as the silent pass-through). -/
def merge_defaults (s : Schema) (x : Value) : Except TErr Value :=
  match translate s with
  | .error e => .error e
  | .ok v =>
      match get_default_for v x true with
      | .ok r => .ok r
      | .error (.typeError m) => .error (.typeError m)
      | .error .noDefaultValue => .ok x

/-- `monk.helpers.validate(spec, value)`: translate, then invoke the
validator (a translation failure surfaces as the
`StructureSpecificationError` itself, modelled on the left). -/
def validate (s : Schema) (x : Value) : Except (TErr ⊕ PErr) Unit :=
  match translate s with
  | .error e => .error (.inl e)
  | .ok v =>
      match callV v x with
      | .ok () => .ok ()
      | .error e => .error (.inr e)

/-- The concrete class of a validator instance (needed because
`BaseValidator.__eq__` tests `isinstance(other, type(self))`, which is
sensitive to the class hierarchy, and `Length` subclasses `InRange`). -/
inductive VClass : Type where
  | anything | isA | equals | containsCls | existsCls | inRange | lengthCls
  | hasAttr | listOfAll | listOfAny | dictOf | allCls | anyCls
deriving DecidableEq, Repr

/-- The class of a validator instance. -/
def vclass : Validator → VClass
  | .Anything _ => .anything
  | .IsA _ _ _ => .isA
  | .Equals _ _ => .equals
  | .Contains _ _ => .containsCls
  | .Exists _ _ => .existsCls
  | .InRange _ _ _ _ => .inRange
  | .Length _ _ _ _ => .lengthCls
  | .HasAttr _ _ => .hasAttr
  | .ListOf .all _ _ _ => .listOfAll
  | .ListOf .any _ _ _ => .listOfAny
  | .DictOf _ _ => .dictOf
  | .All _ _ _ _ => .allCls
  | .Any _ _ _ _ => .anyCls

/-- Python `==` of the optionally-stored `_default` slot of
`InRange`/`Length`: the key is present in both `__dict__`s and the
values compare with `==`, or it is absent from both. -/
def optPyEq : Option Value → Option Value → Bool
  | Option.none, Option.none => true
  | some a, some b => Value.pyEq a b
  | _, _ => false

theorem optPyEq_rfl (d : Option Value) : optPyEq d d = true := by
  cases d <;> simp [optPyEq, Value.pyEq]

mutual

/-- `BaseValidator.__eq__`:
`isinstance(other, type(self)) and self.__dict__ == other.__dict__`,
unfolded over the concrete class pairs.  The only cross-class pair that
can pass the `isinstance` test is a `Length` instance compared from an
`InRange` instance (`Length` subclasses `InRange` and stores the same
fields), so the relation is not symmetric.  Nested validators stored in
`__dict__` are compared recursively with the same `__eq__`; the
class-level `negated` default is materialised as a field. -/
def validatorEq (a b : Validator) : Bool :=
  match a, b with
  | .Anything n1, .Anything n2 => n1 == n2
  | .IsA t1 d1 n1, .IsA t2 d2 n2 => t1 == t2 && Value.pyEq d1 d2 && n1 == n2
  | .Equals e1 n1, .Equals e2 n2 => Value.pyEq e1 e2 && n1 == n2
  | .Contains e1 n1, .Contains e2 n2 => Value.pyEq e1 e2 && n1 == n2
  | .Exists d1 n1, .Exists d2 n2 => Value.pyEq d1 d2 && n1 == n2
  | .InRange m1 x1 d1 n1, .InRange m2 x2 d2 n2 =>
      m1 == m2 && x1 == x2 && optPyEq d1 d2 && n1 == n2
  | .InRange m1 x1 d1 n1, .Length m2 x2 d2 n2 =>
      m1 == m2 && x1 == x2 && optPyEq d1 d2 && n1 == n2
  | .Length m1 x1 d1 n1, .Length m2 x2 d2 n2 =>
      m1 == m2 && x1 == x2 && optPyEq d1 d2 && n1 == n2
  | .HasAttr a1 n1, .HasAttr a2 n2 => a1 == a2 && n1 == n2
  | .ListOf s1 v1 d1 n1, .ListOf s2 v2 d2 n2 =>
      s1 == s2 && validatorEq v1 v2 && Value.pyEq d1 d2 && n1 == n2
  | .DictOf p1 n1, .DictOf p2 n2 => validatorEqPairs p1 p2 && n1 == n2
  | .All s1 d1 f1 n1, .All s2 d2 f2 n2 =>
      validatorEqList s1 s2 && Value.pyEq d1 d2 && f1 == f2 && n1 == n2
  | .Any s1 d1 f1 n1, .Any s2 d2 f2 n2 =>
      validatorEqList s1 s2 && Value.pyEq d1 d2 && f1 == f2 && n1 == n2
  | _, _ => false

/-- Elementwise `__eq__` of the `_specs` lists of two combinators. -/
def validatorEqList : List Validator → List Validator → Bool
  | [], [] => true
  | a :: as_, b :: bs => validatorEq a b && validatorEqList as_ bs
  | _, _ => false

/-- Elementwise `__eq__` of the `_pairs` lists of two `DictOf`s. -/
def validatorEqPairs :
    List (Validator × Validator) → List (Validator × Validator) → Bool
  | [], [] => true
  | (k1, v1) :: xs, (k2, v2) :: ys =>
      validatorEq k1 k2 && validatorEq v1 v2 && validatorEqPairs xs ys
  | _, _ => false

end

/-- Python `repr()` of a boolean. -/
def pyBool (b : Bool) : String :=
  if b then "True" else "False"

/-- Rendering of an optional `_min`/`_max` bound inside
`str(self.__dict__)`. -/
def optIntStr : Option Int → String
  | Option.none => "None"
  | some n => toString n

/-- The trailing `negated` entry and closing brace of a rendered
`__dict__`. -/
def negEnd (n : Bool) : String :=
  ", \x27negated\x27: " ++ pyBool n ++ "\x7d"

/-- `str(self.__dict__)` of a validator: the insertion-ordered field
dictionary rendered with `repr()` of each field value (nested
validators render through their `__repr__`).  The class-level `negated`
default is materialised as a trailing entry. -/
def fieldsStr (v : Validator) : String :=
  match v with
  | .Anything n => "\x7b\x27negated\x27: " ++ pyBool n ++ "\x7d"
  | .IsA t d n =>
      "\x7b\x27expected_type\x27: " ++ clsRepr t ++ ", \x27_default\x27: " ++
        valueRepr d ++ negEnd n
  | .Equals e n => "\x7b\x27_expected_value\x27: " ++ valueRepr e ++ negEnd n
  | .Contains e n => "\x7b\x27_expected_value\x27: " ++ valueRepr e ++ negEnd n
  | .Exists d n => "\x7b\x27_default\x27: " ++ valueRepr d ++ negEnd n
  | .InRange mn mx d n =>
      "\x7b\x27_min\x27: " ++ optIntStr mn ++ ", \x27_max\x27: " ++ optIntStr mx ++
        (match d with
         | some dv => ", \x27_default\x27: " ++ valueRepr dv
         | Option.none => "") ++ negEnd n
  | .Length mn mx d n =>
      "\x7b\x27_min\x27: " ++ optIntStr mn ++ ", \x27_max\x27: " ++ optIntStr mx ++
        (match d with
         | some dv => ", \x27_default\x27: " ++ valueRepr dv
         | Option.none => "") ++ negEnd n
  | .HasAttr a n => "\x7b\x27_attr_name\x27: \x27" ++ a ++ "\x27" ++ negEnd n
  | .ListOf _ w d n =>
      "\x7b\x27_nested_validator\x27: " ++ reprV w ++ ", \x27_default\x27: " ++
        valueRepr d ++ negEnd n
  | .DictOf p n => "\x7b\x27_pairs\x27: [" ++ reprPairsV p ++ "]" ++ negEnd n
  | .All s d f n =>
      "\x7b\x27_specs\x27: [" ++ reprJoin ", " s ++ "], \x27_default\x27: " ++
        valueRepr d ++ ", \x27_first_is_default\x27: " ++ pyBool f ++ negEnd n
  | .Any s d f n =>
      "\x7b\x27_specs\x27: [" ++ reprJoin ", " s ++ "], \x27_default\x27: " ++
        valueRepr d ++ ", \x27_first_is_default\x27: " ++ pyBool f ++ negEnd n

/-- `BaseValidator.__hash__` hashes the string
`'validator_' + str(self.__dict__)`; the hash is modelled by that
string itself (two equal strings hash equal, two distinct strings are
distinct hash inputs). -/
def hashV (v : Validator) : String :=
  "validator_" ++ fieldsStr v

@[simp] theorem Value.beq_iff (a b : Value) : Value.beq a b = true ↔ a = b :=
  ⟨Value.eq_of_beq, fun h => h ▸ Value.beq_rfl a⟩

set_option maxHeartbeats 2000000 in
mutual

theorem validatorEq_rfl : ∀ (a : Validator), validatorEq a a = true
  | .Anything _ => by simp [validatorEq]
  | .IsA _ _ _ => by simp [validatorEq, Value.pyEq_rfl]
  | .Equals _ _ => by simp [validatorEq, Value.pyEq_rfl]
  | .Contains _ _ => by simp [validatorEq, Value.pyEq_rfl]
  | .Exists _ _ => by simp [validatorEq, Value.pyEq_rfl]
  | .InRange _ _ _ _ => by simp [validatorEq, optPyEq_rfl]
  | .Length _ _ _ _ => by simp [validatorEq, optPyEq_rfl]
  | .HasAttr _ _ => by simp [validatorEq]
  | .ListOf _ v _ _ => by simp [validatorEq, Value.pyEq_rfl, validatorEq_rfl v]
  | .DictOf p _ => by simp [validatorEq, validatorEqPairs_rfl p]
  | .All s _ _ _ => by simp [validatorEq, Value.pyEq_rfl, validatorEqList_rfl s]
  | .Any s _ _ _ => by simp [validatorEq, Value.pyEq_rfl, validatorEqList_rfl s]

theorem validatorEqList_rfl : ∀ (xs : List Validator), validatorEqList xs xs = true
  | [] => rfl
  | a :: rest => by simp [validatorEqList, validatorEq_rfl a, validatorEqList_rfl rest]

theorem validatorEqPairs_rfl : ∀ (xs : List (Validator × Validator)),
    validatorEqPairs xs xs = true
  | [] => rfl
  | (k, v) :: rest => by
      simp [validatorEqPairs, validatorEq_rfl k, validatorEq_rfl v,
        validatorEqPairs_rfl rest]

end


/-! General helper lemmas shared by the claim theorems. -/

theorem negWrap_false (p : PErr) (r : Except PErr Unit) : negWrap false p r = r := by
  cases r with
  | ok u => cases u; rfl
  | error e => simp [negWrap]

theorem invert_invert (v : Validator) : invert (invert v) = v := by
  cases v <;> simp [invert]

/-! Claim theorems. -/

unseal mergeV mergePairs translate translatePairs in
set_option maxRecDepth 40000 in
/-- Claim C1 counterexample: `merge_defaults` CAN raise.  For the
schema `DictOf([(Equals([1]), Anything())])` and the value
`\x7b"a": 1\x7d`, the declared key default `[1]` is unhashable, so
`DictOf._merge` raises `TypeError: unhashable type: 'list'` at
`value.get(k_default)` — the exception escapes `get_default_for` (which
catches only `NoDefaultValue`) and `merge_defaults`. -/
theorem merge_defaults_raises_counterexample :
    get_default_for (.DictOf [(.Equals (.list [.int 1]) false, .Anything false)] false)
        (.dict [(.str "a", .int 1)]) true =
      Except.error (.typeError "unhashable type: \x27list\x27") ∧
    merge_defaults
        (.validator (.DictOf [(.Equals (.list [.int 1]) false, .Anything false)] false))
        (.dict [(.str "a", .int 1)]) =
      Except.error (.typeError "unhashable type: \x27list\x27") :=
  ⟨rfl, rfl⟩

/-- Claim C1 (amended): defaulting never surfaces `NoDefaultValue` —
`get_default_for` with the default `silent=True` catches it and returns
the value unchanged, so `merge_defaults` either returns a result or
propagates the one exception the `_merge` pathway can otherwise raise:
the `TypeError` from `DictOf._merge`'s dict operations on an unhashable
declared key default.  For every other outcome the worst case is the
value returned unchanged. -/
theorem defaulting_never_raises :
    ∀ (v : Validator) (x : Value),
      ((∃ r, get_default_for v x true = Except.ok r) ∨
        (∃ m, get_default_for v x true = Except.error (.typeError m))) ∧
      (mergeV v x = Except.error .noDefaultValue →
        get_default_for v x true = Except.ok x) ∧
      (∀ (s : Schema), translate s = Except.ok v →
        ((∃ r, merge_defaults s x = Except.ok r) ∨
          (∃ m, merge_defaults s x = Except.error (.typeError m))) ∧
        (mergeV v x = Except.error .noDefaultValue →
          merge_defaults s x = Except.ok x)) := by
  intro v x
  refine ⟨?_, ?_, ?_⟩
  · match hm : mergeV v x with
    | .ok r => exact Or.inl ⟨r, by simp [get_default_for, hm]⟩
    | .error .noDefaultValue => exact Or.inl ⟨x, by simp [get_default_for, hm]⟩
    | .error (.typeError m) => exact Or.inr ⟨m, by simp [get_default_for, hm]⟩
  · intro hm
    simp [get_default_for, hm]
  · intro s hs
    refine ⟨?_, ?_⟩
    · match hm : mergeV v x with
      | .ok r =>
          exact Or.inl ⟨r, by simp [merge_defaults, hs, get_default_for, hm]⟩
      | .error .noDefaultValue =>
          exact Or.inl ⟨x, by simp [merge_defaults, hs, get_default_for, hm]⟩
      | .error (.typeError m) =>
          exact Or.inr ⟨m, by simp [merge_defaults, hs, get_default_for, hm]⟩
    · intro hm
      simp [merge_defaults, hs, get_default_for, hm]

unseal translate translatePairs mergeV in
/-- Witness for the amended C1 at a concrete garbage value:
`merge_defaults(int, "garbage")` computes and returns the value
unchanged. -/
theorem defaulting_never_raises_witness :
    merge_defaults (.tp .intT) (.str "garbage") = Except.ok (.str "garbage") :=
  (((defaulting_never_raises (.IsA .intT .none false) (.str "garbage")).2.2
    (.tp .intT) rfl).2) rfl

/-- Claim C5: `translate` is idempotent — applied to a value that is
already a validator instance it returns it unchanged, so translating
the result of a successful translation gives the very same validator
(hence also equality under the library's structural `__eq__`). -/
theorem translate_idempotent :
    ∀ (s : Schema) (v : Validator), translate s = Except.ok v →
      translate (Schema.validator v) = translate s := by
  intro s v h
  rw [h]
  simp [translate]

unseal translate in
/-- Witness for C5: translating the translation of the literal schema
`int` is a no-op. -/
theorem translate_idempotent_witness :
    translate (Schema.validator (.IsA .intT .none false)) = translate (.tp .intT) :=
  translate_idempotent (.tp .intT) (.IsA .intT .none false) rfl

/-- Claim C6: negation is involutive — `~` clones the validator with the
`negated` flag flipped, so applying it twice restores the original
node, and `(~(~V))(x)` behaves exactly as `V(x)` (in particular the
pass/fail outcome is the same). -/
theorem negation_involutive :
    ∀ (v : Validator) (x : Value), callV (invert (invert v)) x = callV v x := by
  intro v x
  rw [invert_invert]

/-- Claim C7: `translate` maps `[]` to `IsA(list)` with no item
constraint, `[X]` to `ListOf(translate(X))` (the `ListOfAll` class with
no default), and any list literal with 2 or more elements to a
`StructureSpecificationError` carrying the exact element count and the
offending list. -/
theorem translate_list_rules :
    (translate (.list []) = Except.ok (.IsA .listT .none false)) ∧
    (∀ (x : Schema) (v : Validator), translate x = Except.ok v →
      translate (.list [x]) = Except.ok (.ListOf .all v .none false)) ∧
    (∀ (xs : List Schema), 2 ≤ xs.length →
      translate (.list xs) =
        Except.error (.structureSpecificationError xs.length xs)) := by
  refine ⟨by simp [translate], ?_, ?_⟩
  · intro x v h
    simp [translate, h]
  · intro xs h
    match xs with
    | [] => simp at h
    | [x] => simp at h
    | a :: b :: rest => simp [translate]

unseal translate in
/-- Witness for C7: the singleton rule at `[int]` and the failure rule
at `[int, str]` (count 2 reported). -/
theorem translate_list_rules_witness :
    translate (.list [.tp .intT]) =
      Except.ok (.ListOf .all (.IsA .intT .none false) .none false) ∧
    translate (.list [.tp .intT, .tp .strT]) =
      Except.error (.structureSpecificationError 2 [.tp .intT, .tp .strT]) :=
  ⟨translate_list_rules.2.1 (.tp .intT) (.IsA .intT .none false) rfl,
   translate_list_rules.2.2 [.tp .intT, .tp .strT] (by decide)⟩


/-- Claim C2: for two validators that both fail on `x`, `A & B`
(that is, `All([A, B])`) raises exactly the first child's failure —
independently of the second child, which is never consulted — while
`A | B` (`Any([A, B])`) evaluates all children and raises `AllFailed`
carrying every collected child failure; `Any` succeeds whenever at
least one child passes (`failures < len(children)`). -/
theorem and_short_circuits_or_aggregates :
    ∀ (A B : Validator) (x : Value) (eA eB : PErr),
      callV A x = Except.error eA →
      callV B x = Except.error eB →
      isValidationErrorE eA = true →
      isValidationErrorE eB = true →
      (∀ C : Validator, callV (.All [A, C] .none false false) x = Except.error eA) ∧
      (callV (.Any [A, B] .none false false) x =
        Except.error (construct .allFailed [.err eA, .err eB])) ∧
      (∀ (P Q : Validator) (y : Value) (eP : PErr),
        callV P y = Except.error eP → isValidationErrorE eP = true →
        callV Q y = Except.ok () →
        callV (.Any [P, Q] .none false false) y = Except.ok ()) := by
  intro A B x eA eB hA hB hvA hvB
  refine ⟨?_, ?_, ?_⟩
  · intro C
    rw [callV]
    simp [impliesCheck, isNeg, negWrap_false, checkV, checkSpecsAll, hA]
  · rw [callV]
    simp [impliesCheck, isNeg, negWrap_false, checkV, checkSpecsAny, hA, hB, hvA, hvB]
  · intro P Q y eP hP hvP hQ
    rw [callV]
    simp [impliesCheck, isNeg, negWrap_false, checkV, checkSpecsAny, hP, hQ, hvP]

unseal callV checkV checkSpecsAll checkSpecsAny in
/-- Witness for C2 at two concrete always-failing-on-`"r"` validators
`Equals("p")` and `Equals("q")`. -/
theorem and_short_circuits_or_aggregates_witness :
    callV (.All [.Equals (.str "p") false, .Equals (.str "q") false] .none false false)
        (.str "r") =
      Except.error (.vErr .validationError (.str "must equal \x27p\x27") []) ∧
    callV (.Any [.Equals (.str "p") false, .Equals (.str "q") false] .none false false)
        (.str "r") =
      Except.error (.vErr .allFailed
        (.err (.vErr .validationError (.str "must equal \x27p\x27") []))
        [.err (.vErr .validationError (.str "must equal \x27q\x27") [])]) ∧
    callV (.Any [.Equals (.str "p") false, .Anything false] .none false false)
        (.str "r") = Except.ok () := by
  have h := and_short_circuits_or_aggregates
    (.Equals (.str "p") false) (.Equals (.str "q") false) (.str "r")
    (.vErr .validationError (.str "must equal \x27p\x27") [])
    (.vErr .validationError (.str "must equal \x27q\x27") [])
    rfl rfl rfl rfl
  exact ⟨h.1 (.Equals (.str "q") false), h.2.1,
    h.2.2 (.Equals (.str "p") false) (.Anything false) (.str "r")
      (.vErr .validationError (.str "must equal \x27p\x27") []) rfl rfl rfl⟩


unseal callV checkV checkSpecsAll in
set_option maxRecDepth 40000 in
/-- Claim C9 counterexample: an `All` over two validators that both
fail re-raises the first child's plain `ValidationError` untouched —
the raised exception is not an `AtLeastOneFailed`. -/
theorem all_unwrapped_error_counterexample :
    callV (.All [.Equals (.str "u") false, .Equals (.str "w") false] .none false false)
        (.str "z") =
      Except.error (.vErr .validationError (.str "must equal \x27u\x27") []) ∧
    isAtLeastOneFailedE (.vErr .validationError (.str "must equal \x27u\x27") []) = false :=
  ⟨rfl, rfl⟩

theorem checkSpecsAll_append_error (pre : List Validator) (c : Validator)
    (cs : List Validator) (x : Value) (e : PErr)
    (hpre : ∀ p ∈ pre, callV p x = Except.ok ())
    (hc : callV c x = Except.error e) :
    checkSpecsAll (pre ++ c :: cs) x = Except.error e := by
  induction pre with
  | nil => simp [checkSpecsAll, hc]
  | cons p ps ih =>
      have hp : callV p x = Except.ok () := hpre p (by simp)
      rw [List.cons_append, checkSpecsAll, hp]
      exact ih (fun q hq => hpre q (by simp [hq]))

theorem checkSpecsAll_error_mem (specs : List Validator) (x : Value) (e : PErr)
    (h : checkSpecsAll specs x = Except.error e) :
    ∃ c, c ∈ specs ∧ callV c x = Except.error e := by
  induction specs with
  | nil => simp [checkSpecsAll] at h
  | cons s rest ih =>
      rw [checkSpecsAll] at h
      cases hs : callV s x with
      | ok u =>
          cases u
          rw [hs] at h
          obtain ⟨c, hc1, hc2⟩ := ih h
          exact ⟨c, by simp [hc1], hc2⟩
      | error e2 =>
          rw [hs] at h
          simp only [Except.error.injEq] at h
          exact ⟨s, by simp, by rw [hs, h]⟩

/-- Claim C9 (amended): whenever the `All` combinator's check fails,
the surfaced error is some child's error re-raised verbatim
(`break_on_first_fail` raises without wrapping) — in particular, when
the children before a failing child all pass, `All` fails with exactly
that child's own error, not an `AtLeastOneFailed` holding it; `All`
itself constructs an `AtLeastOneFailed` only through `_raise_error` on
a negated `All` whose inner check passed, carrying the combinator's
`repr`; `AtLeastOneFailed`'s string form joins child messages with
`" and "`. -/
theorem all_propagates_first_child_error :
    (∀ (pre : List Validator) (c : Validator) (cs : List Validator)
        (d : Value) (f : Bool) (x : Value) (e : PErr),
        (∀ p ∈ pre, callV p x = Except.ok ()) →
        callV c x = Except.error e →
        callV (.All (pre ++ c :: cs) d f false) x = Except.error e) ∧
    (∀ (specs : List Validator) (d : Value) (f n : Bool) (x : Value) (e : PErr),
        checkV (.All specs d f n) x = Except.error e →
        ∃ c, c ∈ specs ∧ callV c x = Except.error e) ∧
    (∀ (specs : List Validator) (d : Value) (f : Bool) (x : Value),
        checkV (.All specs d f true) x = Except.ok () →
        callV (.All specs d f true) x =
          Except.error (.vErr .atLeastOneFailed
            (.str (reprV (.All specs d f true))) [])) ∧
    (errorStringSeparator .atLeastOneFailed = " and ") := by
  refine ⟨?_, ?_, ?_, rfl⟩
  · intro pre c cs d f x e hpre hc
    rw [callV]
    simp [impliesCheck, isNeg, negWrap_false, checkV,
      checkSpecsAll_append_error pre c cs x e hpre hc]
  · intro specs d f n x e h
    rw [checkV] at h
    exact checkSpecsAll_error_mem specs x e h
  · intro specs d f x h
    rw [callV]
    simp [impliesCheck, isNeg, negWrap, h, raisedErr, errorClassOf, construct]

unseal callV checkV checkSpecsAll in
set_option maxRecDepth 40000 in
/-- Witness for the amended C9: failure propagation with a passing
child before the failing one, the failing child exhibited as a member,
and a negated `All` over `Anything` raising `AtLeastOneFailed` with its
own repr. -/
theorem all_propagates_first_child_error_witness :
    callV (.All [.Anything false, .Equals (.str "s") false] .none false false)
        (.str "t") =
      Except.error (.vErr .validationError (.str "must equal \x27s\x27") []) ∧
    (∃ c, c ∈ [Validator.Anything false, .Equals (.str "s") false] ∧
      callV c (.str "t") =
        Except.error (.vErr .validationError (.str "must equal \x27s\x27") [])) ∧
    callV (.All [.Anything false] .none false true) (.str "t") =
      Except.error (.vErr .atLeastOneFailed
        (.str (reprV (.All [.Anything false] .none false true))) []) :=
  ⟨all_propagates_first_child_error.1 [.Anything false] (.Equals (.str "s") false) []
      .none false (.str "t")
      (.vErr .validationError (.str "must equal \x27s\x27") [])
      (by
        intro p hp
        simp only [List.mem_singleton] at hp
        rw [hp]
        rfl)
      rfl,
   all_propagates_first_child_error.2.1
      [.Anything false, .Equals (.str "s") false] .none false false (.str "t")
      (.vErr .validationError (.str "must equal \x27s\x27") []) rfl,
   all_propagates_first_child_error.2.2.1 [.Anything false] .none false (.str "t") rfl⟩

/-- Claim C10: `ValidationError.__init__` (shared by `MissingKeys` and
`InvalidKeys`) accepts at most two positional arguments, so a `DictOf`
validation that collects three or more unconsumed data keys raises
`TypeError` from the `InvalidKeys(*invalid_keys)` construction instead
of an `InvalidKeys` error, and likewise three or more missing required
keys raise `TypeError` from `MissingKeys(*reprs)`. -/
theorem validation_error_arity :
    (∀ (cls : ErrClass) (args : List ErrMsg), 3 ≤ args.length →
        construct cls args = .typeError "init takes from 2 to 3 positional arguments") ∧
    (∀ (pairs : List (Validator × Validator)) (kvs : List (Value × Value))
        (validated : List Value) (missing : List Validator),
        scanPairs pairs kvs [] [] = Except.ok (validated, missing) →
        validated.length < kvs.length →
        3 ≤ (invalidDataKeys kvs validated).length →
        callV (.DictOf pairs false) (.dict kvs) =
          Except.error (.typeError "init takes from 2 to 3 positional arguments")) ∧
    (∀ (pairs : List (Validator × Validator)) (kvs : List (Value × Value))
        (validated : List Value) (missing : List Validator),
        scanPairs pairs kvs [] [] = Except.ok (validated, missing) →
        ¬(validated.length < kvs.length) →
        3 ≤ missing.length →
        callV (.DictOf pairs false) (.dict kvs) =
          Except.error (.typeError "init takes from 2 to 3 positional arguments")) := by
  have harity : ∀ (cls : ErrClass) (args : List ErrMsg), 3 ≤ args.length →
      construct cls args = .typeError "init takes from 2 to 3 positional arguments" := by
    intro cls args h
    match args with
    | [] => simp at h
    | [a] => simp at h
    | [a, b] => simp at h
    | a :: b :: c :: rest => rfl
  refine ⟨harity, ?_, ?_⟩
  · intro pairs kvs validated missing hscan hlt hlen
    rw [callV]
    simp only [impliesCheck, isinst, typeOf, isNeg, negWrap_false]
    simp only [beq_self_eq_true, Bool.true_or, if_pos]
    rw [checkV]
    simp only [dictData, hscan, hlt, if_pos]
    rw [harity .invalidKeys _ (by simpa using hlen)]
  · intro pairs kvs validated missing hscan hge hlen
    rw [callV]
    simp only [impliesCheck, isinst, typeOf, isNeg, negWrap_false]
    simp only [beq_self_eq_true, Bool.true_or, if_pos]
    rw [checkV]
    simp only [dictData, hscan]
    rw [if_neg hge]
    have hne : missing.isEmpty = false := by
      cases missing with
      | nil => simp at hlen
      | cons a t => rfl
    simp only [hne, Bool.false_eq_true, if_false]
    rw [harity .missingKeys _ (by simpa [missingKeyReprs] using hlen)]

unseal callV checkV scanPairs scanKeys in
set_option maxRecDepth 40000 in
/-- Witness for C10: a schema requiring key `"a"` applied to a dict of
three unknown keys yields `TypeError` (instead of `InvalidKeys`), and a
schema requiring three keys applied to the empty dict yields
`TypeError` (instead of `MissingKeys`). -/
theorem validation_error_arity_witness :
    callV (.DictOf [(.Equals (.str "a") false, .IsA .intT .none false)] false)
        (.dict [(.str "x", .int 1), (.str "y", .int 2), (.str "z", .int 3)]) =
      Except.error (.typeError "init takes from 2 to 3 positional arguments") ∧
    callV (.DictOf [(.Equals (.str "a") false, .IsA .intT .none false),
        (.Equals (.str "b") false, .IsA .intT .none false),
        (.Equals (.str "c") false, .IsA .intT .none false)] false)
        (.dict []) =
      Except.error (.typeError "init takes from 2 to 3 positional arguments") :=
  ⟨validation_error_arity.2.1
      [(.Equals (.str "a") false, .IsA .intT .none false)]
      [(.str "x", .int 1), (.str "y", .int 2), (.str "z", .int 3)]
      [] [.Equals (.str "a") false] rfl (by decide) (by decide),
   validation_error_arity.2.2
      [(.Equals (.str "a") false, .IsA .intT .none false),
       (.Equals (.str "b") false, .IsA .intT .none false),
       (.Equals (.str "c") false, .IsA .intT .none false)]
      [] []
      [.Equals (.str "a") false, .Equals (.str "b") false, .Equals (.str "c") false]
      rfl (by decide) (by decide)⟩


theorem construct_invalidKeys_not_missingKeys (args : List ErrMsg) :
    isMissingKeysE (construct .invalidKeys args) = false := by
  match args with
  | [] => rfl
  | [a] => rfl
  | [a, b] => rfl
  | a :: b :: c :: rest => rfl

unseal callV checkV scanPairs scanKeys in
set_option maxRecDepth 40000 in
/-- Claim C3 counterexample: a dict with three data keys matched by no
declared pair and a missing required pair raises `TypeError` (from the
`InvalidKeys(*keys)` construction), not `InvalidKeys` — the claim's
"raises InvalidKeys" fails for three or more unconsumed keys.  The
second conjunct documents that the claim's precondition holds: no data
key is consumed and the required `"a"` pair is missing. -/
theorem dict_three_invalid_keys_counterexample :
    callV (.DictOf [(.Equals (.str "a") false, .IsA .intT .none false)] false)
        (.dict [(.str "x", .int 1), (.str "y", .int 2), (.str "z", .int 3)]) =
      Except.error (.typeError "init takes from 2 to 3 positional arguments") ∧
    scanPairs [(.Equals (.str "a") false, .IsA .intT .none false)]
        [(.str "x", .int 1), (.str "y", .int 2), (.str "z", .int 3)] [] [] =
      Except.ok ([], [.Equals (.str "a") false]) :=
  ⟨rfl, rfl⟩

/-- Claim C3 (amended): for every `DictOf` validator and dict value
with unconsumed data keys and missing required pairs, the invalid-keys
check is performed before the missing-keys check: the call raises the
invalid-keys failure — `InvalidKeys` over the unconsumed keys when
their `InvalidKeys(*keys)` construction succeeds (at most two keys),
`TypeError` when there are three or more — and never `MissingKeys`. -/
theorem dict_invalid_keys_precede_missing :
    ∀ (pairs : List (Validator × Validator)) (kvs : List (Value × Value))
      (validated : List Value) (missing : List Validator),
      scanPairs pairs kvs [] [] = Except.ok (validated, missing) →
      validated.length < kvs.length →
      missing ≠ [] →
      (callV (.DictOf pairs false) (.dict kvs) =
        Except.error (construct .invalidKeys
          ((invalidDataKeys kvs validated).map ErrMsg.val))) ∧
      (∀ e, callV (.DictOf pairs false) (.dict kvs) = Except.error e →
        isMissingKeysE e = false) := by
  intro pairs kvs validated missing hscan hlt hmiss
  have hcall : callV (.DictOf pairs false) (.dict kvs) =
      Except.error (construct .invalidKeys
        ((invalidDataKeys kvs validated).map ErrMsg.val)) := by
    rw [callV]
    simp only [impliesCheck, isinst, typeOf, isNeg, negWrap_false]
    simp only [beq_self_eq_true, Bool.true_or, if_pos]
    rw [checkV]
    simp only [dictData, hscan, hlt, if_pos]
  refine ⟨hcall, ?_⟩
  intro e he
  rw [hcall] at he
  injection he with he2
  rw [← he2]
  exact construct_invalidKeys_not_missingKeys _

unseal callV checkV scanPairs scanKeys in
set_option maxRecDepth 40000 in
/-- Witness for the amended C3: the schema requiring key `"a"` applied
to the single-key dict `\x7b"z": 2\x7d` raises `InvalidKeys` naming
`"z"`, although the required pair is also missing. -/
theorem dict_invalid_keys_precede_missing_witness :
    callV (.DictOf [(.Equals (.str "a") false, .IsA .intT .none false)] false)
        (.dict [(.str "z", .int 2)]) =
      Except.error (.vErr .invalidKeys (.val (.str "z")) []) ∧
    isMissingKeysE (.vErr .invalidKeys (.val (.str "z")) []) = false := by
  have h := dict_invalid_keys_precede_missing
    [(.Equals (.str "a") false, .IsA .intT .none false)]
    [(.str "z", .int 2)] [] [.Equals (.str "a") false]
    rfl (by decide) (by simp)
  exact ⟨h.1, h.2 (.vErr .invalidKeys (.val (.str "z")) []) h.1⟩


theorem containsKey_append (c : List (Value × Value)) (p : Value × Value) (k : Value) :
    containsKey (c ++ [p]) k = (containsKey c k || Value.pyEq p.1 k) := by
  simp [containsKey, List.any_append]

theorem containsKey_pyEq_trans (c : List (Value × Value)) (a b : Value)
    (h1 : containsKey c a = true) (h2 : Value.pyEq a b = true) :
    containsKey c b = true := by
  simp only [containsKey, List.any_eq_true] at h1 ⊢
  obtain ⟨p, hp, hpe⟩ := h1
  refine ⟨p, hp, ?_⟩
  rw [Value.pyEq_iff] at hpe h2 ⊢
  rw [hpe, h2]

theorem copyMissing_mono (kvs : List (Value × Value)) :
    ∀ (c res : List (Value × Value)) (k : Value),
      copyMissing c kvs = Except.ok res → containsKey c k = true →
      containsKey res k = true := by
  induction kvs with
  | nil =>
      intro c res k h hc
      rw [copyMissing] at h
      simp only [Except.ok.injEq] at h
      rw [← h]
      exact hc
  | cons p rest ih =>
      intro c res k h hc
      obtain ⟨k0, v0⟩ := p
      rw [copyMissing] at h
      by_cases hh : hashable k0 = true
      · rw [if_pos hh] at h
        by_cases hck : containsKey c k0 = true
        · rw [if_pos hck] at h
          exact ih c res k h hc
        · rw [if_neg hck] at h
          refine ih _ res k h ?_
          rw [containsKey_append]
          simp [hc]
      · rw [if_neg hh] at h
        simp at h

theorem containsKey_copyMissing (kvs : List (Value × Value)) :
    ∀ (c res : List (Value × Value)) (k : Value),
      copyMissing c kvs = Except.ok res → containsKey kvs k = true →
      containsKey res k = true := by
  induction kvs with
  | nil =>
      intro c res k h hk
      simp [containsKey] at hk
  | cons p rest ih =>
      intro c res k h hk
      obtain ⟨k0, v0⟩ := p
      rw [copyMissing] at h
      by_cases hh : hashable k0 = true
      case neg =>
        rw [if_neg hh] at h
        simp at h
      rw [if_pos hh] at h
      have hcons : containsKey ((k0, v0) :: rest) k =
          (Value.pyEq k0 k || containsKey rest k) := by
        simp [containsKey]
      rw [hcons] at hk
      by_cases hpk : Value.pyEq k0 k = true
      · by_cases hck : containsKey c k0 = true
        · rw [if_pos hck] at h
          exact copyMissing_mono rest c res k h (containsKey_pyEq_trans c k0 k hck hpk)
        · rw [if_neg hck] at h
          refine copyMissing_mono rest _ res k h ?_
          rw [containsKey_append]
          simp [hpk]
      · have hrest : containsKey rest k = true := by
          simp only [hpk, Bool.false_or] at hk
          exact hk
        by_cases hck : containsKey c k0 = true
        · rw [if_pos hck] at h
          exact ih c res k h hrest
        · rw [if_neg hck] at h
          exact ih _ res k h hrest

unseal mergeV in
/-- Claim C4 counterexample: `ListOf(IsA(int)).get_default_for(0)`
returns `[]`, not the non-list value `0` unchanged (the emptiness check
of `BaseListOf._merge` precedes its type check, so every falsy non-list
value is converted to `[]`); moreover a `DictOf` with an empty pair
list returns `\x7b\x7d`, dropping the input dict's keys. -/
theorem merge_discards_falsy_nonlist_counterexample :
    get_default_for (.ListOf .all (.IsA .intT .none false) .none false) (.int 0) true =
      Except.ok (Value.list []) ∧
    Value.list [] ≠ Value.int 0 ∧
    get_default_for (.DictOf [] false) (.dict [(.str "a", .int 1)]) true =
      Except.ok (Value.dict []) :=
  ⟨rfl, by decide, rfl⟩

unseal translate translatePairs mergeV mergePairs mergeItems in
set_option maxRecDepth 40000 in
/-- Claim C4 (amended): defaulting preserves data it cannot interpret,
with the provisos the code imposes: `DictOf._merge` returns any
non-`None` non-dict value unchanged and, when at least one pair is
declared and the merge completes without the `TypeError` of an
unhashable key default, every key of the input dict is kept in the
result (keys not covered by a declared key default keep their original
values; a `DictOf` with an empty pair list instead returns
`\x7b\x7d`); `BaseListOf._merge` returns a *truthy* non-list value
unchanged, while falsy values (`0`, `""`, `False`, empty containers)
are converted to `[]` by the emptiness check that precedes the type
check.  In particular `merge_defaults(\x7b"a": 1\x7d, \x7b"a": 1,
"extra": "kept"\x7d)` still contains `"extra": "kept"`. -/
theorem merge_preserves_data_amended :
    (∀ (pairs : List (Validator × Validator)) (n : Bool) (x : Value),
        x ≠ Value.none → isinst x .dictT = false →
        get_default_for (.DictOf pairs n) x true = Except.ok x) ∧
    (∀ (strat : ItemStrategy) (nested : Validator) (d : Value) (n : Bool) (x : Value),
        truthy x = true → isinst x .listT = false →
        get_default_for (.ListOf strat nested d n) x true = Except.ok x) ∧
    (∀ (pairs : List (Validator × Validator)) (n : Bool)
        (kvs : List (Value × Value)) (k : Value) (res : List (Value × Value)),
        pairs ≠ [] →
        mergeV (.DictOf pairs n) (.dict kvs) = Except.ok (.dict res) →
        containsKey kvs k = true →
        containsKey res k = true) ∧
    (merge_defaults (.dict [(.lit (.str "a"), .lit (.int 1))])
        (.dict [(.str "a", .int 1), (.str "extra", .str "kept")]) =
      Except.ok (.dict [(.str "a", .int 1), (.str "extra", .str "kept")])) := by
  refine ⟨?_, ?_, ?_, ?_⟩
  · intro pairs n x hx hd
    have hbne : (x != Value.none) = true := by simpa using hx
    have hm : mergeV (.DictOf pairs n) x = Except.ok x := by
      rw [mergeV]
      simp [hbne, hd]
    simp [get_default_for, hm]
  · intro strat nested d n x ht hl
    have hm : mergeV (.ListOf strat nested d n) x = Except.ok x := by
      rw [mergeV]
      simp [ht, hl]
    simp [get_default_for, hm]
  · intro pairs n kvs k res hp h hk
    have hkvs : kvs ≠ [] := by
      intro hnil
      rw [hnil] at hk
      simp [containsKey] at hk
    have htr : truthy (.dict kvs) = true := by
      cases kvs with
      | nil => exact absurd rfl hkvs
      | cons a t => simp [truthy]
    have hpe : pairs.isEmpty = false := by
      cases pairs with
      | nil => exact absurd rfl hp
      | cons a t => rfl
    rw [mergeV] at h
    simp only [isinst, typeOf, bne, Value.beq, beq_self_eq_true, Bool.true_or,
      Bool.not_true, Bool.and_false, Bool.false_eq_true, if_false, hpe, dictData,
      htr, if_true] at h
    cases hmp : mergePairs pairs true kvs [] with
    | error e =>
        rw [hmp] at h
        simp at h
    | ok collected =>
        rw [hmp] at h
        dsimp only at h
        cases hcm : copyMissing collected kvs with
        | error e =>
            rw [hcm] at h
            simp at h
        | ok res2 =>
            rw [hcm] at h
            simp only [Except.ok.injEq, Value.dict.injEq] at h
            exact containsKey_copyMissing kvs collected res k (h ▸ hcm) hk
  · rfl

unseal mergeV mergePairs translate translatePairs in
set_option maxRecDepth 40000 in
/-- Witness for the amended C4 at concrete inputs: a bogus non-dict is
preserved by `DictOf` defaulting, a truthy non-list by `ListOf`
defaulting, and the unknown key `"extra"` survives defaulting. -/
theorem merge_preserves_data_amended_witness :
    get_default_for (.DictOf [(.Equals (.str "a") false, .IsA .intT .none false)] false)
        (.str "bogus") true = Except.ok (Value.str "bogus") ∧
    get_default_for (.ListOf .all (.IsA .intT .none false) .none false)
        (.str "bogus") true = Except.ok (Value.str "bogus") ∧
    containsKey [(.str "a", .int 1), (.str "extra", .str "kept")] (.str "extra") = true :=
  ⟨merge_preserves_data_amended.1
      [(.Equals (.str "a") false, .IsA .intT .none false)] false (.str "bogus")
      (by decide) (by decide),
   merge_preserves_data_amended.2.1 .all (.IsA .intT .none false) .none false
      (.str "bogus") (by decide) (by decide),
   merge_preserves_data_amended.2.2.1
      [(.Equals (.str "a") false, .IsA .intT (.int 1) false)] false
      [(.str "a", .int 1), (.str "extra", .str "kept")] (.str "extra")
      [(.str "a", .int 1), (.str "extra", .str "kept")]
      (by simp) rfl (by decide)⟩


set_option maxRecDepth 40000 in
/-- Claim C8 counterexample, refuting both halves of the claim.
(1) `InRange(1, 2) == Length(1, 2)` holds even though the two
instances have different classes (`Length` subclasses `InRange` and
stores the same fields, and `__eq__` only tests
`isinstance(other, type(self))`), refuting "equal exactly when same
class".  (2) `ListOf(InRange(1, 2)) == ListOf(Length(1, 2))` holds
while their hashes differ (the hashed `str(self.__dict__)` renders the
nested validators through their distinct `__repr__`s).  (3)
`Equals(1) == Equals(True)` holds in *both* directions — same class,
and Python's `1 == True` makes the field dicts equal — yet the hash
inputs render `1` versus `True`, so even symmetrically equal
validators can have different hashes, refuting "equal validators have
equal hashes". -/
theorem validator_eq_counterexample :
    (validatorEq (.InRange (some 1) (some 2) Option.none false)
        (.Length (some 1) (some 2) Option.none false) = true ∧
      vclass (.InRange (some 1) (some 2) Option.none false) ≠
        vclass (.Length (some 1) (some 2) Option.none false)) ∧
    (validatorEq
        (.ListOf .all (.InRange (some 1) (some 2) Option.none false) .none false)
        (.ListOf .all (.Length (some 1) (some 2) Option.none false) .none false) = true ∧
      hashV (.ListOf .all (.InRange (some 1) (some 2) Option.none false) .none false) ≠
        hashV (.ListOf .all (.Length (some 1) (some 2) Option.none false) .none false)) ∧
    (validatorEq (.Equals (.int 1) false) (.Equals (.bool true) false) = true ∧
      validatorEq (.Equals (.bool true) false) (.Equals (.int 1) false) = true ∧
      hashV (.Equals (.int 1) false) ≠ hashV (.Equals (.bool true) false)) :=
  ⟨⟨rfl, by decide⟩, ⟨rfl, by decide⟩, ⟨rfl, rfl, by decide⟩⟩

/-- Claim C8 (amended): validator equality is structural up to the
class hierarchy and Python's `==` on the stored fields — `a == b` holds
exactly when `b`'s class equals or subclasses `a`'s class and the field
dicts are equal under `==`, so it is reflexive, but it is neither
symmetric across the hierarchy (`InRange(1, 2) == Length(1, 2)` only
one way) nor does equality — even symmetric equality, as with
`Equals(1) == Equals(True)` — guarantee equal hashes: the hash is
derived from the `str()` rendering of the field dict, so equal
validators hash equally exactly when their fields render identically;
in particular structurally identical validators always have equal
hashes. -/
theorem validator_eq_amended :
    (∀ a : Validator, validatorEq a a = true) ∧
    (∀ a b : Validator, a = b → validatorEq a b = true ∧ hashV a = hashV b) ∧
    (∀ (e1 e2 : Value) (n1 n2 : Bool),
      validatorEq (.Equals e1 n1) (.Equals e2 n2) = true ↔
        (Value.pyEq e1 e2 = true ∧ n1 = n2)) ∧
    (∀ (m1 x1 m2 x2 : Option Int) (d1 d2 : Option Value) (n1 n2 : Bool),
      (validatorEq (.InRange m1 x1 d1 n1) (.Length m2 x2 d2 n2) = true ↔
        (m1 = m2 ∧ x1 = x2 ∧ optPyEq d1 d2 = true ∧ n1 = n2)) ∧
      validatorEq (.Length m1 x1 d1 n1) (.InRange m2 x2 d2 n2) = false) := by
  refine ⟨validatorEq_rfl, ?_, ?_, ?_⟩
  · rintro a b rfl
    exact ⟨validatorEq_rfl a, rfl⟩
  · intro e1 e2 n1 n2
    simp [validatorEq]
  · intro m1 x1 m2 x2 d1 d2 n1 n2
    constructor
    · simp [validatorEq]
      tauto
    · simp [validatorEq]

/-- Witness for the amended C8 at concrete validators: reflexivity and
hash agreement at `Equals("x")`, and the `Equals` field
characterization instantiated at the Python-equal pair `1` / `True`. -/
theorem validator_eq_amended_witness :
    validatorEq (.Equals (.str "x") false) (.Equals (.str "x") false) = true ∧
    hashV (.Equals (.str "x") false) = hashV (.Equals (.str "x") false) ∧
    validatorEq (.Equals (.int 1) false) (.Equals (.bool true) false) = true :=
  ⟨validator_eq_amended.1 (.Equals (.str "x") false),
   (validator_eq_amended.2.1 (.Equals (.str "x") false) (.Equals (.str "x") false) rfl).2,
   (validator_eq_amended.2.2.1 (.int 1) (.bool true) false false).mpr ⟨by decide, rfl⟩⟩

end Monk
